import Mathlib

/-!
Verification of the `yaviq-sdk` Python SDK (`tokenopt.py`) against its
natural-language specification.

The SDK is a thin HTTP client.  We shallowly embed it:

* JSON values (the payloads and parsed response bodies) are the inductive
  type `JVal` (a mutual inductive so that decidable equality can be derived).
* Python truthiness of JSON-decoded values is `jTruthy`.
* The network is an oracle `NetOutcome` describing, for the single POST a
  method performs, what `urllib.request.urlopen` did: a 2xx response with a
  parsed JSON body, an `HTTPError` with a status code and an error body, or
  a `URLError` (transport failure).  2xx bodies are modelled already parsed
  (a malformed 2xx JSON body raises a raw `json.JSONDecodeError` in the
  source, outside the SDK's error taxonomy and outside all claims).
* Exceptions are values: `YAVIQError` mirrors the SDK exception class
  (message, status_code, code) and `PyErr` adds the builtin Python
  exceptions (`KeyError`, `TypeError`, `AttributeError`) that dictionary
  subscription / attribute access can raise in the source.
* Every public method returns a `MethodResult`: the value or exception, the
  list of HTTP requests issued (so "no network call" and "same call" claims
  are statable), and the list of telemetry lines printed.

Python `str()` rendering of numbers and nested containers inside error
messages is abstracted by `pyStr` (no claim depends on message text).
-/

mutual
/-- A JSON value, as produced by `json.loads` in `_http_post`. -/
inductive JVal where
  | null
  | bool (b : Bool)
  | num (q : ℚ)
  | str (s : String)
  | arr (elems : JArr)
  | obj (fields : JObj)
deriving DecidableEq

/-- A JSON array (spelled out to keep `DecidableEq` derivable). -/
inductive JArr where
  | nil
  | cons (v : JVal) (rest : JArr)
deriving DecidableEq

/-- A JSON object: an ordered list of key/value pairs. -/
inductive JObj where
  | nil
  | cons (k : String) (v : JVal) (rest : JObj)
deriving DecidableEq
end

/-- Build a `JObj` from a list of pairs (convenience for request bodies). -/
def JObj.ofList : List (String × JVal) → JObj
  | [] => .nil
  | (k, v) :: rest => .cons k v (JObj.ofList rest)

/-- `d.get(key)` on a Python dict built by `json.loads`: with duplicate keys
the last occurrence wins, so we search the tail first. -/
def JObj.find : JObj → String → Option JVal
  | .nil, _ => none
  | .cons k v rest, key =>
    match JObj.find rest key with
    | some w => some w
    | none => if k = key then some v else none

def JArr.isNil : JArr → Bool
  | .nil => true
  | .cons _ _ => false

def JObj.isNil : JObj → Bool
  | .nil => true
  | .cons _ _ _ => false

/-- Python truthiness of a JSON-decoded value: `None`, `False`, `0`, `""`,
`[]` and `{}` are falsy, everything else truthy. -/
def jTruthy : JVal → Bool
  | .null => false
  | .bool b => b
  | .num q => decide (q ≠ 0)
  | .str s => decide (s ≠ "")
  | .arr xs => !xs.isNil
  | .obj fs => !fs.isNil

/-- Python `a or b` on JSON values (left operand if truthy, else right). -/
def pyOrJ (a b : JVal) : JVal := if jTruthy a then a else b

/-- Python `a or b` where `a : Optional[str]` and `b : str`
(`None` and `""` are falsy). -/
def pyOrStr (a : Option String) (b : String) : String :=
  match a with
  | some s => if s = "" then b else s
  | none => b

/-- Python `a or b` where `a : Optional[int]` and `b : int`
(`None` and `0` are falsy). -/
def pyOrInt (a : Option ℤ) (b : ℤ) : ℤ :=
  match a with
  | some n => if n = 0 then b else n
  | none => b

mutual
/-- Python `str()` of a JSON-decoded value, as interpolated into f-strings.
Scalars are rendered faithfully; the `repr` details of nested containers
(element quoting) are abstracted — no claim depends on message text. -/
def pyStr : JVal → String
  | .null => "None"
  | .bool b => if b then "True" else "False"
  | .num q => if q.den = 1 then toString q.num else toString q
  | .str s => s
  | .arr xs => "[" ++ pyStrArr xs ++ "]"
  | .obj fs => "\x7b" ++ pyStrObj fs ++ "\x7d"

def pyStrArr : JArr → String
  | .nil => ""
  | .cons v rest => pyStr v ++ (if rest.isNil then "" else ", ") ++ pyStrArr rest

def pyStrObj : JObj → String
  | .nil => ""
  | .cons k v rest =>
    k ++ ": " ++ pyStr v ++ (if rest.isNil then "" else ", ") ++ pyStrObj rest
end

/-- The SDK exception `YAVIQError(message, status_code, code)`.  `message`
and `status_code` hold arbitrary Python values in the source (the
`success: false` envelope stores raw response fields in them), so both are
modelled as `JVal`; Python `None` is `JVal.null`. -/
structure YAVIQError where
  message : JVal
  status_code : JVal
  code : String
deriving DecidableEq

/-- `NetworkError(message, status_code=None)`: code `NETWORK_ERROR`. -/
def NetworkError (message status_code : JVal) : YAVIQError :=
  ⟨message, status_code, "NETWORK_ERROR"⟩

/-- `ValidationError(message)`: fixed status 400, code `VALIDATION_ERROR`. -/
def ValidationError (message : JVal) : YAVIQError :=
  ⟨message, .num 400, "VALIDATION_ERROR"⟩

/-- `TOONParseError(message)`: fixed status 400, code `TOON_PARSE_ERROR`. -/
def TOONParseError (message : JVal) : YAVIQError :=
  ⟨message, .num 400, "TOON_PARSE_ERROR"⟩

/-- `EngineFailureError(message, status_code=None)`: stores
`status_code or 500` (so a falsy status — `None`, `0` — becomes 500),
code `ENGINE_FAILURE`. -/
def EngineFailureError (message status_code : JVal) : YAVIQError :=
  ⟨message, pyOrJ status_code (.num 500), "ENGINE_FAILURE"⟩

/-- `SchemaMismatchError(message)`: fixed status 400, code `SCHEMA_MISMATCH`. -/
def SchemaMismatchError (message : JVal) : YAVIQError :=
  ⟨message, .num 400, "SCHEMA_MISMATCH"⟩

/-- A Python exception as it escapes an SDK method: either a classified SDK
error or one of the builtin exceptions the source can raise (subscripting a
missing key, subscripting / calling `.get` on a non-dict, arithmetic on a
non-number). -/
inductive PyErr where
  | yv (e : YAVIQError)
  | keyError (k : String)
  | attributeError (msg : String)
  | typeError (msg : String)
deriving DecidableEq

/-- Python `str(e)` of an exception (abstracted rendering; no claim depends
on these strings). -/
def pyErrStr : PyErr → String
  | .yv e => pyStr e.message
  | .keyError k => k
  | .attributeError msg => msg
  | .typeError msg => msg

/-- What the transport did for the single POST a method performs. -/
inductive NetOutcome where
  | success (body : JVal)
  | httpError (code : ℤ) (bodyText : String) (parsed : Option JVal)
  | urlError (reason : String)

/-- One HTTP POST issued by `_http_post`: the full URL and the JSON body. -/
structure HttpRequest where
  url : String
  body : JVal
deriving DecidableEq

/-- Result of a public SDK method: the returned value or raised exception,
the HTTP requests issued, and the telemetry lines printed. -/
structure MethodResult (α : Type) where
  result : Except PyErr α
  requests : List HttpRequest
  logs : List String

def DEFAULT_ENDPOINT : String := "https://api.yaviq.local"

/-- The client state after construction. -/
structure YAVIQClient where
  api_key : String
  endpoint : String
  send_telemetry : Bool
deriving DecidableEq

/-- `endpoint.rstrip("/")`: drop trailing slashes. -/
def pyRstripSlash (s : String) : String :=
  String.mk ((s.toList.reverse.dropWhile (· = '/')).reverse)

/-- `YAVIQClient.__init__(api_key, endpoint)`.  The process environment is
passed explicitly: `env_api_key` is `os.environ.get("YAVIQ_API_KEY")` and
`env_endpoint` is `os.environ.get("YAVIQ_ENDPOINT")` (`none` when unset).
The constructor issues no HTTP request, hence the empty request trace. -/
def YAVIQClient.init (api_key endpoint env_api_key env_endpoint : Option String) :
    Except YAVIQError YAVIQClient × List HttpRequest :=
  let key := pyOrStr api_key (env_api_key.getD "")
  let ep := pyOrStr endpoint (env_endpoint.getD DEFAULT_ENDPOINT)
  (if key = "" then
    .error (ValidationError (.str "API key is required. Set YAVIQ_API_KEY environment variable or pass api_key to constructor."))
  else
    .ok ⟨key, ep, false⟩, [])

/-- The builtin-exception message for the `error_data.get(...)` attempt on a
non-dict parsed error body (`AttributeError`, caught in the source). -/
def errBodyMsg (bodyText : String) (parsed : Option JVal) (code : ℤ) : JVal :=
  match parsed with
  | some (.obj fs) =>
    -- error_data.get("error") or error_data.get("message") or error_body
    pyOrJ ((fs.find "error").getD .null)
      (pyOrJ ((fs.find "message").getD .null) (.str bodyText))
  | _ =>
    -- json.JSONDecodeError / AttributeError path: error_body or f"HTTP {code}"
    .str (if bodyText = "" then "HTTP " ++ toString code else bodyText)

/-- `YAVIQClient._http_post(path, body)`.  Returns the parsed data or the
raised `YAVIQError`, together with the single request issued. -/
def YAVIQClient.http_post (c : YAVIQClient) (path : String) (body : JVal)
    (net : NetOutcome) : Except YAVIQError JVal × List HttpRequest :=
  let req : HttpRequest := ⟨pyRstripSlash c.endpoint ++ path, body⟩
  let res : Except YAVIQError JVal :=
    match net with
    | .success result =>
      match result with
      | .obj fs =>
        -- result.get("success") is True and "data" in result
        if fs.find "success" = some (.bool true) ∧ (fs.find "data").isSome then
          .ok ((fs.find "data").getD .null)
        -- result.get("success") is False
        else if fs.find "success" = some (.bool false) then
          .error (EngineFailureError ((fs.find "error").getD (.str "Unknown error"))
            ((fs.find "status").getD (.num 500)))
        else
          .ok result
      | other => .ok other
    | .httpError code bodyText parsed =>
      let msg := errBodyMsg bodyText parsed code
      if 400 ≤ code ∧ code < 500 then
        .error (ValidationError
          (.str ("Request failed (" ++ toString code ++ "): " ++ pyStr msg)))
      else if 500 ≤ code then
        .error (EngineFailureError
          (.str ("Server error (" ++ toString code ++ "): " ++ pyStr msg)) (.num code))
      else
        .error (NetworkError
          (.str ("Request failed (" ++ toString code ++ "): " ++ pyStr msg)) (.num code))
    | .urlError reason =>
      .error (NetworkError (.str ("Network error: " ++ reason)) .null)
  (res, [req])

/-- `YAVIQClient._normalize_mode(mode)`: the `mode_map.get(mode, "balanced")`
lookup, written out. -/
def YAVIQClient.normalize_mode (mode : String) : String :=
  if mode = "low" then "safe"
  else if mode = "safe" then "safe"
  else if mode = "medium" then "balanced"
  else if mode = "balanced" then "balanced"
  else if mode = "high" then "aggressive"
  else if mode = "aggressive" then "aggressive"
  else "balanced"

/-- Python `round(q)` on an exact value: round half to even.  (CPython
rounds the binary double; for the word-count heuristic the exact value
`words / 0.75 = 4*words/3` is never a half-integer and its distance to the
nearest half-integer is at least 1/6, so for every realizable word count the
double rounds identically to the exact rational.) -/
def pyRound (q : ℚ) : ℤ :=
  let f : ℤ := Int.floor q
  let r : ℚ := q - f
  if r < 1/2 then f
  else if (1 : ℚ)/2 < r then f + 1
  else if f % 2 = 0 then f else f + 1

/-- Python `round(q, 2)`: round half to even at two decimal places. -/
def pyRound2 (q : ℚ) : ℚ := ((pyRound (q * 100) : ℤ) : ℚ) / 100

/-- `text.strip()` (whitespace variant): drop leading and trailing
whitespace. -/
def pyStrip (s : String) : String :=
  String.mk (((s.toList.dropWhile Char.isWhitespace).reverse.dropWhile
    Char.isWhitespace).reverse)

/-- Python `"\n\n".join(docs)`. -/
def pyJoinBlank : List String → String
  | [] => ""
  | [s] => s
  | s :: rest => s ++ "\n\n" ++ pyJoinBlank rest

/-- Helper for `text.split()`: accumulate the current word (reversed). -/
def splitWsGo : List Char → List Char → List String
  | [], acc => if acc.isEmpty then [] else [String.mk acc.reverse]
  | ch :: rest, acc =>
    if ch.isWhitespace then
      if acc.isEmpty then splitWsGo rest []
      else String.mk acc.reverse :: splitWsGo rest []
    else splitWsGo rest (ch :: acc)

/-- Python `text.split()` with no separator: split on runs of whitespace,
discarding leading and trailing whitespace. -/
def pySplitWs (s : String) : List String := splitWsGo s.toList []

/-- `YAVIQClient.count_tokens(text)`: `0` for falsy input, else
`int(round(len(text.strip().split()) / 0.75))` (`0.75 = 3/4`). -/
def YAVIQClient.count_tokens (text : String) : ℤ :=
  if text = "" then 0
  else
    let words : ℕ := (pySplitWs (pyStrip text)).length
    pyRound ((words : ℚ) / (3 / 4))

/-- The module-level `estimate_tokens(text)` function (the standalone
backward-compatibility copy of the word-count heuristic). -/
def estimate_tokens (text : String) : ℤ :=
  if text = "" then 0
  else
    let words : ℕ := (pySplitWs (pyStrip text)).length
    pyRound ((words : ℚ) / (3 / 4))

/-- `None`-aware embedding of an `Optional[str]` argument into a JSON body. -/
def jOptStr : Option String → JVal
  | some s => .str s
  | none => .null

/-- `None`-aware embedding of an `Optional[int]` argument into a JSON body. -/
def jOptInt : Option ℤ → JVal
  | some n => .num n
  | none => .null

/-- `None`-aware embedding of an optional JSON value (e.g. `history`). -/
def jOfOpt : Option JVal → JVal
  | some v => v
  | none => .null

/-- The telemetry line of `optimize`:
`result.get(...)` raises `AttributeError` when the result returned by
`_http_post` is not a dict (possible in pass-through mode). -/
def telemetry_line_optimize (result : JVal) : Except PyErr String :=
  match result with
  | .obj fs =>
    .ok ("[Telemetry] optimize: tokensSaved=" ++ pyStr ((fs.find "tokensSaved").getD (.num 0))
      ++ ", compression=" ++ pyStr ((fs.find "compression").getD (.num 0)) ++ "%")
  | _ => .error (.attributeError "object has no attribute get")

/-- `YAVIQClient.optimize(input_text, mode, format, model, debug)`.  The
`debug` argument exists in the source signature but is not forwarded. -/
def YAVIQClient.optimize (c : YAVIQClient) (input_text : String)
    (mode format : String) (model : Option String) (debug : Bool)
    (net : NetOutcome) : MethodResult JVal :=
  if input_text = "" then
    ⟨.error (.yv (ValidationError (.str "Input is required and must be a string"))), [], []⟩
  else
    let m := YAVIQClient.normalize_mode mode
    let body : JVal := .obj (JObj.ofList
      [("input", .str input_text), ("format", .str format),
       ("mode", .str m), ("model", jOptStr model)])
    let pr := c.http_post "/v1/optimize" body net
    match pr.1 with
    | .error e => ⟨.error (.yv e), pr.2, []⟩
    | .ok result =>
      if c.send_telemetry then
        match telemetry_line_optimize result with
        | .ok line => ⟨.ok result, pr.2, [line]⟩
        | .error e => ⟨.error e, pr.2, []⟩
      else ⟨.ok result, pr.2, []⟩

/-- The telemetry line of `optimize_and_run` (`result.get("metrics", {})`
then two `metrics.get(...)` reads). -/
def telemetry_line_run (result : JVal) : Except PyErr String :=
  match result with
  | .obj fs =>
    match (fs.find "metrics").getD (.obj .nil) with
    | .obj ms =>
      .ok ("[Telemetry] optimize_and_run: tokensUsed="
        ++ pyStr ((ms.find "total_tokens_used").getD (.num 0))
        ++ ", savings=" ++ pyStr ((ms.find "final_total_savings_percent").getD (.str "0%")))
    | _ => .error (.attributeError "object has no attribute get")
  | _ => .error (.attributeError "object has no attribute get")

/-- `YAVIQClient.optimize_and_run(...)`. -/
def YAVIQClient.optimize_and_run (c : YAVIQClient) (input_text : String)
    (mode format : String) (model : Option String)
    (use_rag use_history : Bool) (history : Option JVal)
    (rag_chunk_limit : Option ℤ) (debug : Bool)
    (net : NetOutcome) : MethodResult JVal :=
  if input_text = "" then
    ⟨.error (.yv (ValidationError (.str "Input is required and must be a string"))), [], []⟩
  else
    let m := YAVIQClient.normalize_mode mode
    let body : JVal := .obj (JObj.ofList
      [("userId", .str "sdk_user"), ("input", .str input_text),
       ("format", .str format), ("mode", .str m), ("model", jOptStr model),
       ("use_rag", .bool use_rag), ("use_history", .bool use_history),
       ("history", jOfOpt history), ("rag_chunk_limit", jOptInt rag_chunk_limit),
       ("debug", .bool debug)])
    let pr := c.http_post "/v1/optimize-run" body net
    match pr.1 with
    | .error e => ⟨.error (.yv e), pr.2, []⟩
    | .ok result =>
      if c.send_telemetry then
        match telemetry_line_run result with
        | .ok line => ⟨.ok result, pr.2, [line]⟩
        | .error e => ⟨.error e, pr.2, []⟩
      else ⟨.ok result, pr.2, []⟩

/-- `count_tokens` applied to an arbitrary value, as in the fallback
`self.count_tokens(optimized.get("optimized", ""))`: falsy values return 0
before the `.strip()` attribute access, a truthy non-string raises
`AttributeError`. -/
def count_tokens_val : JVal → Except PyErr ℤ
  | v =>
    if jTruthy v = false then .ok 0
    else match v with
      | .str s => .ok (YAVIQClient.count_tokens s)
      | _ => .error (.attributeError "object has no attribute strip")

/-- Python numeric coercion for `-`, `>` and `/` operands: `int`, `float`
and `bool` (a bool is an int) work, everything else is a `TypeError`. -/
def jNum : JVal → Except PyErr ℚ
  | .num q => .ok q
  | .bool b => .ok (if b then 1 else 0)
  | _ => .error (.typeError "unsupported operand type")

/-- The mapping returned by `YAVIQClient.estimate_tokens`. -/
structure EstimateResult where
  original_tokens : ℚ
  optimized_tokens : ℚ
  estimated_savings : ℚ
  estimated_savings_percent : ℚ
deriving DecidableEq

/-- `YAVIQClient.estimate_tokens(input_text, mode, format)`: performs a real
`optimize` call, then derives counts and savings.  The `or` fallbacks and
the evaluation order of the Python lines (the `optimized_tokens` line runs
before the subtraction) are preserved. -/
def YAVIQClient.estimate_tokens (c : YAVIQClient) (input_text mode format : String)
    (net : NetOutcome) : MethodResult EstimateResult :=
  if input_text = "" then
    ⟨.error (.yv (ValidationError (.str "Input is required and must be a string"))), [], []⟩
  else
    let o := c.optimize input_text mode format none false net
    match o.result with
    | .error e => ⟨.error e, o.requests, o.logs⟩
    | .ok result =>
      match result with
      | .obj fs =>
        -- original_tokens = optimized.get("originalTokens") or self.count_tokens(input_text)
        let origJ := (fs.find "originalTokens").getD .null
        let origV : JVal :=
          if jTruthy origJ then origJ else .num (YAVIQClient.count_tokens input_text)
        -- optimized_tokens = optimized.get("optimizedTokens")
        --                    or self.count_tokens(optimized.get("optimized", ""))
        let optJ := (fs.find "optimizedTokens").getD .null
        let optE : Except PyErr JVal :=
          if jTruthy optJ then .ok optJ
          else (count_tokens_val ((fs.find "optimized").getD (.str ""))).map (.num ·)
        match optE with
        | .error e => ⟨.error e, o.requests, o.logs⟩
        | .ok optV =>
          -- estimated_savings = original_tokens - optimized_tokens
          match jNum origV, jNum optV with
          | .ok oq, .ok pq =>
            let savings := oq - pq
            let pct := if oq > 0 then pyRound2 (savings / oq * 100) else 0
            ⟨.ok ⟨oq, pq, savings, pct⟩, o.requests, o.logs⟩
          | .error e, _ => ⟨.error e, o.requests, o.logs⟩
          | _, .error e => ⟨.error e, o.requests, o.logs⟩
      | _ => ⟨.error (.attributeError "object has no attribute get"), o.requests, o.logs⟩

/-- Python `result[key]`: `KeyError` on a dict without the key, `TypeError`
when the value is not subscriptable by a string. -/
def jSubscr : JVal → String → Except PyErr JVal
  | .obj fs, k =>
    match fs.find k with
    | some v => .ok v
    | none => .error (.keyError k)
  | _, _ => .error (.typeError "object is not subscriptable")

/-- `YAVIQClient.to_toon(input_text, format)`: POST, then `result["toon"]`;
the `except` clause re-raises a `YAVIQError` unchanged and wraps every other
exception in a `TOONParseError`. -/
def YAVIQClient.to_toon (c : YAVIQClient) (input_text format : String)
    (net : NetOutcome) : MethodResult JVal :=
  if input_text = "" then
    ⟨.error (.yv (ValidationError (.str "Input is required and must be a string"))), [], []⟩
  else
    let body : JVal := .obj (JObj.ofList [("input", .str input_text), ("format", .str format)])
    let pr := c.http_post "/v1/convert-to-toon" body net
    let inner : Except PyErr JVal :=
      match pr.1 with
      | .error e => .error (.yv e)
      | .ok result => jSubscr result "toon"
    match inner with
    | .ok v => ⟨.ok v, pr.2, []⟩
    | .error (.yv e) => ⟨.error (.yv e), pr.2, []⟩
    | .error e =>
      ⟨.error (.yv (TOONParseError (.str ("Convert to TOON failed: " ++ pyErrStr e)))), pr.2, []⟩

/-- `YAVIQClient.from_toon(toon)`: POST, then `result["json"]`; same
exception policy as `to_toon`. -/
def YAVIQClient.from_toon (c : YAVIQClient) (toon : String)
    (net : NetOutcome) : MethodResult JVal :=
  if toon = "" then
    ⟨.error (.yv (ValidationError (.str "TOON input is required and must be a string"))), [], []⟩
  else
    let body : JVal := .obj (JObj.ofList [("toon", .str toon)])
    let pr := c.http_post "/v1/convert-from-toon" body net
    let inner : Except PyErr JVal :=
      match pr.1 with
      | .error e => .error (.yv e)
      | .ok result => jSubscr result "json"
    match inner with
    | .ok v => ⟨.ok v, pr.2, []⟩
    | .error (.yv e) => ⟨.error (.yv e), pr.2, []⟩
    | .error e =>
      ⟨.error (.yv (TOONParseError (.str ("Convert from TOON failed: " ++ pyErrStr e)))), pr.2, []⟩

/-- `YAVIQClient.convert(input_text, format)`: POST (format hint defaulting
to `"auto"`), then builds `{"toon": result["toon"], "format":
result["format"]}`; same exception policy as `to_toon`. -/
def YAVIQClient.convert (c : YAVIQClient) (input_text : String)
    (format : Option String) (net : NetOutcome) : MethodResult JVal :=
  if input_text = "" then
    ⟨.error (.yv (ValidationError (.str "Input is required and must be a string"))), [], []⟩
  else
    let body : JVal := .obj (JObj.ofList
      [("input", .str input_text), ("format", .str (pyOrStr format "auto"))])
    let pr := c.http_post "/v1/convert-to-toon" body net
    let inner : Except PyErr JVal :=
      match pr.1 with
      | .error e => .error (.yv e)
      | .ok result =>
        -- {"toon": result["toon"], "format": result["format"]}, left to right
        match jSubscr result "toon" with
        | .error e2 => .error e2
        | .ok t =>
          match jSubscr result "format" with
          | .error e2 => .error e2
          | .ok f => .ok (.obj (JObj.ofList [("toon", t), ("format", f)]))
    match inner with
    | .ok v => ⟨.ok v, pr.2, []⟩
    | .error (.yv e) => ⟨.error (.yv e), pr.2, []⟩
    | .error e =>
      ⟨.error (.yv (TOONParseError (.str ("Convert failed: " ++ pyErrStr e)))), pr.2, []⟩

/-- `YAVIQClient.optimize_rag(docs, mode, rag_chunk_limit, debug)`: joins a
document list with a blank line (or takes a single string), validates
non-emptiness, then delegates to `optimize_and_run` with `use_rag=True` and
`rag_chunk_limit or 10`. -/
def YAVIQClient.optimize_rag (c : YAVIQClient) (docs : String ⊕ List String)
    (mode : String) (rag_chunk_limit : Option ℤ) (debug : Bool)
    (net : NetOutcome) : MethodResult JVal :=
  let input_text :=
    match docs with
    | .inl s => s
    | .inr l => pyJoinBlank l
  if input_text = "" then
    ⟨.error (.yv (ValidationError (.str "Documents are required"))), [], []⟩
  else
    c.optimize_and_run input_text mode "auto" none true false none
      (some (pyOrInt rag_chunk_limit 10)) debug net

/-- The `code` of a raised `YAVIQError`, if any. -/
def errCodeY {α : Type} : Except YAVIQError α → Option String
  | .error e => some e.code
  | .ok _ => none

/-- The `status_code` of a raised `YAVIQError`, if any. -/
def errStatusY {α : Type} : Except YAVIQError α → Option JVal
  | .error e => some e.status_code
  | .ok _ => none

/-- The `code` of a classified SDK error escaping a public method, if the
escaping exception is one. -/
def errCodeP {α : Type} : Except PyErr α → Option String
  | .error (.yv e) => some e.code
  | _ => none

/-- A concrete client for witnesses (telemetry off, as after construction). -/
def cDemo : YAVIQClient := ⟨"key", "https://api.yaviq.local", false⟩

/-- The same client with the telemetry flag switched on by the caller. -/
def cDemoOn : YAVIQClient := ⟨"key", "https://api.yaviq.local", true⟩

/-- The caller-side mutation `client.send_telemetry = b` (the only mutable
field of a client). -/
def withTelemetry (c : YAVIQClient) (b : Bool) : YAVIQClient :=
  ⟨c.api_key, c.endpoint, b⟩

/-- The value `serverField or fallback` takes for a numeric-or-absent server
field: the server number when it is present and truthy (nonzero), the local
fallback count otherwise.  Used to state what `estimate_tokens` computes. -/
def pyOrNumFallback (v : Option ℚ) (fb : ℤ) : ℚ :=
  match v with
  | some q => if q ≠ 0 then q else (fb : ℚ)
  | none => (fb : ℚ)

/-! ## Helper lemmas (shared across claims) -/

/-- Python `round` of an exact integer is that integer. -/
theorem pyRound_intCast (n : ℤ) : pyRound ((n : ℚ)) = n := by
  unfold pyRound
  norm_num [Int.floor_intCast]

/-- `round(q, 2)` of an exact integer is that integer. -/
theorem pyRound2_intCast (n : ℤ) : pyRound2 ((n : ℚ)) = (n : ℚ) := by
  have h : ((n : ℚ)) * 100 = (((n * 100 : ℤ)) : ℚ) := by push_cast; ring
  unfold pyRound2
  rw [h, pyRound_intCast]
  push_cast
  field_simp

/-- `round(q)` when the fractional part is below one half. -/
theorem pyRound_eq_floor (q : ℚ) (h : q - Int.floor q < 1/2) :
    pyRound q = Int.floor q := by
  simp only [pyRound]
  rw [if_pos h]

/-- `round(q)` when the fractional part is above one half. -/
theorem pyRound_eq_floor_add_one (q : ℚ) (h : 1/2 < q - Int.floor q) :
    pyRound q = Int.floor q + 1 := by
  simp only [pyRound]
  rw [if_neg (by linarith), if_pos h]

/-- `count_tokens` on a non-empty string, with the `let` unfolded. -/
theorem count_tokens_of_ne (s : String) (h : s ≠ "") :
    YAVIQClient.count_tokens s =
      pyRound ((((pySplitWs (pyStrip s)).length : ℕ) : ℚ) / (3/4)) := by
  unfold YAVIQClient.count_tokens
  rw [if_neg h]

theorem count_tokens_empty : YAVIQClient.count_tokens "" = 0 := rfl

theorem count_tokens_three_words : YAVIQClient.count_tokens "one two three" = 4 := by
  rw [count_tokens_of_ne _ (by decide)]
  have hw : (pySplitWs (pyStrip "one two three")).length = 3 := by decide
  rw [hw]
  have h4 : (((3 : ℕ) : ℚ)) / (3 / 4) = (((4 : ℤ)) : ℚ) := by norm_num
  rw [h4, pyRound_intCast]

theorem count_tokens_x : YAVIQClient.count_tokens "x" = 1 := by
  rw [count_tokens_of_ne _ (by decide)]
  have hw : (pySplitWs (pyStrip "x")).length = 1 := by decide
  rw [hw]
  have hf : Int.floor ((((1 : ℕ) : ℚ)) / (3 / 4)) = 1 := by norm_num
  rw [pyRound_eq_floor _ (by rw [hf]; norm_num), hf]

/-! ## Claim theorems -/

/-- Claim C4: `_normalize_mode` is total and idempotent — every string maps
into exactly `{safe, balanced, aggressive}`; `low ↦ safe`, `medium ↦
balanced`, `high ↦ aggressive`; the three canonical values are fixed; every
unrecognized string maps to `"balanced"`; applying it twice equals applying
it once. -/
theorem C4_normalize_mode_total_idempotent (s : String) :
    (YAVIQClient.normalize_mode s = "safe" ∨ YAVIQClient.normalize_mode s = "balanced" ∨
      YAVIQClient.normalize_mode s = "aggressive") ∧
    YAVIQClient.normalize_mode (YAVIQClient.normalize_mode s) = YAVIQClient.normalize_mode s ∧
    YAVIQClient.normalize_mode "low" = "safe" ∧
    YAVIQClient.normalize_mode "medium" = "balanced" ∧
    YAVIQClient.normalize_mode "high" = "aggressive" ∧
    YAVIQClient.normalize_mode "safe" = "safe" ∧
    YAVIQClient.normalize_mode "balanced" = "balanced" ∧
    YAVIQClient.normalize_mode "aggressive" = "aggressive" ∧
    (s ≠ "low" → s ≠ "safe" → s ≠ "medium" → s ≠ "balanced" → s ≠ "high" →
      s ≠ "aggressive" → YAVIQClient.normalize_mode s = "balanced") := by
  have hrange : YAVIQClient.normalize_mode s = "safe" ∨
      YAVIQClient.normalize_mode s = "balanced" ∨
      YAVIQClient.normalize_mode s = "aggressive" := by
    unfold YAVIQClient.normalize_mode
    split_ifs <;> simp
  refine ⟨hrange, ?_, by decide, by decide, by decide, by decide, by decide, by decide, ?_⟩
  · rcases hrange with h | h | h <;> rw [h] <;> decide
  · intro h1 h2 h3 h4 h5 h6
    unfold YAVIQClient.normalize_mode
    simp [h1, h2, h3, h4, h5, h6]

/-- Witness for C4 at the unrecognized mode string `"turbo"`. -/
theorem C4_witness : YAVIQClient.normalize_mode "turbo" = "balanced" :=
  (C4_normalize_mode_total_idempotent "turbo").2.2.2.2.2.2.2.2
    (by decide) (by decide) (by decide) (by decide) (by decide) (by decide)

/-- Claim C7: `count_tokens` is a pure local function (it takes no network
oracle and issues no request); on every string it returns 0 for empty input
and otherwise the whitespace word count divided by 0.75 and rounded; in
particular it maps `""` to 0 and `"one two three"` to `round(3/0.75) = 4`. -/
theorem C7_count_tokens_heuristic (s : String) :
    YAVIQClient.count_tokens "" = 0 ∧
    YAVIQClient.count_tokens "one two three" = 4 ∧
    YAVIQClient.count_tokens s =
      (if s = "" then 0
        else pyRound ((((pySplitWs (pyStrip s)).length : ℕ) : ℚ) / (3/4))) :=
  ⟨count_tokens_empty, count_tokens_three_words, rfl⟩

/-- Claim C10: the module-level standalone `estimate_tokens` heuristic and
the `YAVIQClient.count_tokens` method agree on every string. -/
theorem C10_standalone_heuristic_agrees (s : String) :
    estimate_tokens s = YAVIQClient.count_tokens s := rfl

/-- Claim C5: constructing a `YAVIQClient` with no explicit `api_key` and no
`YAVIQ_API_KEY` environment value raises a `VALIDATION_ERROR`, and
construction never issues an HTTP request (the request trace of `__init__`
is empty on the failure path and the success path alike). -/
theorem C5_construction_requires_key (api_key endpoint env_api_key env_endpoint : Option String) :
    ((api_key = none ∨ api_key = some "") → (env_api_key = none ∨ env_api_key = some "") →
      errCodeY (YAVIQClient.init api_key endpoint env_api_key env_endpoint).1 =
        some "VALIDATION_ERROR") ∧
    (YAVIQClient.init api_key endpoint env_api_key env_endpoint).2 = [] := by
  constructor
  · intro hk he
    have hkey : pyOrStr api_key (env_api_key.getD "") = "" := by
      rcases hk with hk | hk <;> rcases he with he | he <;> subst hk <;> subst he <;> rfl
    unfold YAVIQClient.init
    rw [hkey]
    rfl
  · rfl

/-- Witness for C5: no argument, empty environment. -/
theorem C5_witness :
    errCodeY (YAVIQClient.init none none none none).1 = some "VALIDATION_ERROR" ∧
    (YAVIQClient.init none none none none).2 = [] :=
  ⟨(C5_construction_requires_key none none none none).1 (Or.inl rfl) (Or.inl rfl),
    (C5_construction_requires_key none none none none).2⟩

/-- Claim C1 (as written) is refuted here: for the 4xx response 404, the
raised error does have code `VALIDATION_ERROR`, but its `status_code` is the
fixed 400 of the `ValidationError` class, not the HTTP status 404 of the
response. -/
theorem C1_counterexample :
    errCodeY (cDemo.http_post "/v1/optimize" (.obj .nil) (.httpError 404 "not found" none)).1 =
      some "VALIDATION_ERROR" ∧
    errStatusY (cDemo.http_post "/v1/optimize" (.obj .nil) (.httpError 404 "not found" none)).1 =
      some (.num 400) ∧
    JVal.num 400 ≠ JVal.num 404 := by
  exact ⟨rfl, rfl, by decide⟩

/-- Claim C1 (amended): an `HTTPError` with status in 400–499 raises an
error with code `VALIDATION_ERROR` whose `status_code` is the class-fixed
400 (equal to the HTTP status only when that status is 400); a status ≥ 500
raises `ENGINE_FAILURE` carrying the HTTP status; an `HTTPError` with any
other status and a `URLError` (transport failure) raise `NETWORK_ERROR`. -/
theorem C1_http_error_classification (c : YAVIQClient) (path : String) (body : JVal)
    (code : ℤ) (bodyText : String) (parsed : Option JVal) (reason : String) :
    (400 ≤ code → code < 500 →
      errCodeY (c.http_post path body (.httpError code bodyText parsed)).1 =
          some "VALIDATION_ERROR" ∧
        errStatusY (c.http_post path body (.httpError code bodyText parsed)).1 =
          some (.num 400)) ∧
    (500 ≤ code →
      errCodeY (c.http_post path body (.httpError code bodyText parsed)).1 =
          some "ENGINE_FAILURE" ∧
        errStatusY (c.http_post path body (.httpError code bodyText parsed)).1 =
          some (.num ((code : ℤ) : ℚ))) ∧
    (code < 400 →
      errCodeY (c.http_post path body (.httpError code bodyText parsed)).1 =
          some "NETWORK_ERROR" ∧
        errStatusY (c.http_post path body (.httpError code bodyText parsed)).1 =
          some (.num ((code : ℤ) : ℚ))) ∧
    errCodeY (c.http_post path body (.urlError reason)).1 = some "NETWORK_ERROR" := by
  refine ⟨?_, ?_, ?_, rfl⟩
  · intro h1 h2
    simp only [YAVIQClient.http_post]
    rw [if_pos ⟨h1, h2⟩]
    exact ⟨rfl, rfl⟩
  · intro h5
    have hq : (((code : ℤ)) : ℚ) ≠ 0 := by
      exact_mod_cast (show code ≠ 0 by omega)
    simp only [YAVIQClient.http_post]
    rw [if_neg (by omega), if_pos h5]
    refine ⟨rfl, ?_⟩
    simp [errStatusY, EngineFailureError, pyOrJ, jTruthy, hq]
  · intro h0
    simp only [YAVIQClient.http_post]
    rw [if_neg (by omega), if_neg (by omega)]
    exact ⟨rfl, rfl⟩

/-- Witness for C1 (amended) at the statuses 404, 503, 302 and a DNS-level
transport failure. -/
theorem C1_witness :
    (errCodeY (cDemo.http_post "/p" (.obj .nil) (.httpError 404 "nf" none)).1 =
        some "VALIDATION_ERROR" ∧
      errStatusY (cDemo.http_post "/p" (.obj .nil) (.httpError 404 "nf" none)).1 =
        some (.num 400)) ∧
    (errCodeY (cDemo.http_post "/p" (.obj .nil) (.httpError 503 "oops" none)).1 =
        some "ENGINE_FAILURE" ∧
      errStatusY (cDemo.http_post "/p" (.obj .nil) (.httpError 503 "oops" none)).1 =
        some (.num (((503 : ℤ)) : ℚ))) ∧
    (errCodeY (cDemo.http_post "/p" (.obj .nil) (.httpError 302 "moved" none)).1 =
        some "NETWORK_ERROR" ∧
      errStatusY (cDemo.http_post "/p" (.obj .nil) (.httpError 302 "moved" none)).1 =
        some (.num (((302 : ℤ)) : ℚ))) ∧
    errCodeY (cDemo.http_post "/p" (.obj .nil) (.urlError "dns failure")).1 =
      some "NETWORK_ERROR" := by
  have h4 := C1_http_error_classification cDemo "/p" (.obj .nil) 404 "nf" none "dns failure"
  have h5 := C1_http_error_classification cDemo "/p" (.obj .nil) 503 "oops" none "dns failure"
  have h3 := C1_http_error_classification cDemo "/p" (.obj .nil) 302 "moved" none "dns failure"
  exact ⟨h4.1 (by decide) (by decide), h5.2.1 (by decide), h3.2.2.1 (by decide), h3.2.2.2⟩

/-- Claim C6 (as written) is refuted here: on the 2xx response
`{success: false, error: "boom", status: 0}` the raised `ENGINE_FAILURE`
error carries status 500, not the response's status 0, because
`EngineFailureError` stores `status_code or 500` and `0` is falsy. -/
theorem C6_counterexample :
    (cDemo.http_post "/p" (.obj .nil) (.success (.obj (JObj.ofList
        [("success", .bool false), ("error", .str "boom"), ("status", .num 0)])))).1 =
      .error ⟨.str "boom", .num 500, "ENGINE_FAILURE"⟩ ∧
    JVal.num 500 ≠ JVal.num 0 :=
  ⟨rfl, by decide⟩

/-- Claim C6 (amended): on a 2xx response, a mapping with `success` exactly
`true` and a `data` key unwraps to the value of `data`; a mapping with
`success` exactly `false` raises `ENGINE_FAILURE` carrying the `error` field
(defaulting to "Unknown error" when absent) and the `status` field when that
status is truthy — 500 when `status` is absent or falsy (e.g. `0` or
`null`); every other shape (mapping or not) is returned unchanged. -/
theorem C6_envelope_handling (c : YAVIQClient) (path : String) (reqBody : JVal)
    (fs : JObj) (v w : JVal) :
    (fs.find "success" = some (.bool true) → fs.find "data" = some v →
      (c.http_post path reqBody (.success (.obj fs))).1 = .ok v) ∧
    (fs.find "success" = some (.bool false) →
      (c.http_post path reqBody (.success (.obj fs))).1 =
        .error (EngineFailureError ((fs.find "error").getD (.str "Unknown error"))
          ((fs.find "status").getD (.num 500)))) ∧
    (¬(fs.find "success" = some (.bool true) ∧ (fs.find "data").isSome = true) →
      fs.find "success" ≠ some (.bool false) →
      (c.http_post path reqBody (.success (.obj fs))).1 = .ok (.obj fs)) ∧
    ((∀ gs : JObj, w ≠ .obj gs) →
      (c.http_post path reqBody (.success w)).1 = .ok w) := by
  refine ⟨?_, ?_, ?_, ?_⟩
  · intro h1 h2
    simp only [YAVIQClient.http_post]
    rw [if_pos ⟨h1, by rw [h2]; rfl⟩]
    simp [h2]
  · intro h1
    simp only [YAVIQClient.http_post]
    rw [if_neg (by simp [h1]), if_pos h1]
  · intro h1 h2
    simp only [YAVIQClient.http_post]
    rw [if_neg h1, if_neg h2]
  · intro hw
    cases w with
    | obj gs => exact absurd rfl (hw gs)
    | null => rfl
    | bool b => rfl
    | num q => rfl
    | str s => rfl
    | arr xs => rfl

/-- Witness for C6 (amended): unwrapping, the failure envelope, a mapping
matching neither envelope, and a non-mapping body. -/
theorem C6_witness :
    (cDemo.http_post "/p" (.obj .nil) (.success (.obj (JObj.ofList
        [("success", .bool true), ("data", .str "payload")])))).1 = .ok (.str "payload") ∧
    (cDemo.http_post "/p" (.obj .nil) (.success (.obj (JObj.ofList
        [("success", .bool false), ("error", .str "broke"), ("status", .num 502)])))).1 =
      .error ⟨.str "broke", .num 502, "ENGINE_FAILURE"⟩ ∧
    (cDemo.http_post "/p" (.obj .nil) (.success (.obj (JObj.ofList
        [("answer", .num 7)])))).1 = .ok (.obj (JObj.ofList [("answer", .num 7)])) ∧
    (cDemo.http_post "/p" (.obj .nil) (.success (.str "flat"))).1 = .ok (.str "flat") := by
  have hu := C6_envelope_handling cDemo "/p" (.obj .nil)
    (JObj.ofList [("success", .bool true), ("data", .str "payload")]) (.str "payload") (.str "flat")
  have hf := C6_envelope_handling cDemo "/p" (.obj .nil)
    (JObj.ofList [("success", .bool false), ("error", .str "broke"), ("status", .num 502)])
    .null (.str "flat")
  have hr := C6_envelope_handling cDemo "/p" (.obj .nil)
    (JObj.ofList [("answer", .num 7)]) .null (.str "flat")
  exact ⟨hu.1 rfl rfl, hf.2.1 rfl, hr.2.2.1 (by decide) (by decide),
    hr.2.2.2 (fun gs h => JVal.noConfusion h)⟩

/-- `result[key]` never raises a classified SDK error: its failures are
`KeyError` / `TypeError` only. -/
theorem jSubscr_not_yv (v : JVal) (k : String) (e : YAVIQError) :
    jSubscr v k ≠ .error (.yv e) := by
  cases v with
  | obj fs =>
    cases h : fs.find k with
    | some w => simp [jSubscr, h]
    | none => simp [jSubscr, h]
  | null => simp [jSubscr]
  | bool b => simp [jSubscr]
  | num q => simp [jSubscr]
  | str s => simp [jSubscr]
  | arr xs => simp [jSubscr]

/-- Claim C3: inside the network portion of `to_toon`, `from_toon` and
`convert`, an already-classified `YAVIQError` raised by `_http_post`
propagates to the caller unchanged (never wrapped a second time), while
every other exception (a failing subscript on the response) is re-raised
with code `TOON_PARSE_ERROR`. -/
theorem C3_toon_wrap_policy (c : YAVIQClient) (input format toon : String)
    (fmtO : Option String) (net : NetOutcome) (e : YAVIQError) (result : JVal) (ex : PyErr) :
    (input ≠ "" →
      (c.http_post "/v1/convert-to-toon"
          (.obj (JObj.ofList [("input", .str input), ("format", .str format)])) net).1 =
        .error e →
      (c.to_toon input format net).result = .error (.yv e)) ∧
    (input ≠ "" →
      (c.http_post "/v1/convert-to-toon"
          (.obj (JObj.ofList [("input", .str input), ("format", .str format)])) net).1 =
        .ok result →
      jSubscr result "toon" = .error ex →
      errCodeP (c.to_toon input format net).result = some "TOON_PARSE_ERROR") ∧
    (toon ≠ "" →
      (c.http_post "/v1/convert-from-toon"
          (.obj (JObj.ofList [("toon", .str toon)])) net).1 = .error e →
      (c.from_toon toon net).result = .error (.yv e)) ∧
    (toon ≠ "" →
      (c.http_post "/v1/convert-from-toon"
          (.obj (JObj.ofList [("toon", .str toon)])) net).1 = .ok result →
      jSubscr result "json" = .error ex →
      errCodeP (c.from_toon toon net).result = some "TOON_PARSE_ERROR") ∧
    (input ≠ "" →
      (c.http_post "/v1/convert-to-toon"
          (.obj (JObj.ofList [("input", .str input), ("format", .str (pyOrStr fmtO "auto"))])) net).1 =
        .error e →
      (c.convert input fmtO net).result = .error (.yv e)) ∧
    (input ≠ "" →
      (c.http_post "/v1/convert-to-toon"
          (.obj (JObj.ofList [("input", .str input), ("format", .str (pyOrStr fmtO "auto"))])) net).1 =
        .ok result →
      (jSubscr result "toon" = .error ex ∨
        (∃ t, jSubscr result "toon" = .ok t ∧ jSubscr result "format" = .error ex)) →
      errCodeP (c.convert input fmtO net).result = some "TOON_PARSE_ERROR") := by
  refine ⟨?_, ?_, ?_, ?_, ?_, ?_⟩
  · intro hin hpost
    simp only [YAVIQClient.to_toon]
    rw [if_neg hin, hpost]
  · intro hin hpost hsub
    simp only [YAVIQClient.to_toon]
    rw [if_neg hin, hpost]
    cases ex with
    | yv e2 => exact absurd hsub (jSubscr_not_yv result "toon" e2)
    | keyError k => simp [hsub, errCodeP, TOONParseError]
    | attributeError m => simp [hsub, errCodeP, TOONParseError]
    | typeError m => simp [hsub, errCodeP, TOONParseError]
  · intro hin hpost
    simp only [YAVIQClient.from_toon]
    rw [if_neg hin, hpost]
  · intro hin hpost hsub
    simp only [YAVIQClient.from_toon]
    rw [if_neg hin, hpost]
    cases ex with
    | yv e2 => exact absurd hsub (jSubscr_not_yv result "json" e2)
    | keyError k => simp [hsub, errCodeP, TOONParseError]
    | attributeError m => simp [hsub, errCodeP, TOONParseError]
    | typeError m => simp [hsub, errCodeP, TOONParseError]
  · intro hin hpost
    simp only [YAVIQClient.convert]
    rw [if_neg hin, hpost]
  · intro hin hpost hsub
    simp only [YAVIQClient.convert]
    rw [if_neg hin, hpost]
    rcases hsub with hsub | ⟨t, hT, hsub⟩
    · cases ex with
      | yv e2 => exact absurd hsub (jSubscr_not_yv result "toon" e2)
      | keyError k => simp [hsub, errCodeP, TOONParseError]
      | attributeError m => simp [hsub, errCodeP, TOONParseError]
      | typeError m => simp [hsub, errCodeP, TOONParseError]
    · cases ex with
      | yv e2 => exact absurd hsub (jSubscr_not_yv result "format" e2)
      | keyError k => simp [hT, hsub, errCodeP, TOONParseError]
      | attributeError m => simp [hT, hsub, errCodeP, TOONParseError]
      | typeError m => simp [hT, hsub, errCodeP, TOONParseError]

/-- Witness for C3: a transport failure propagates unchanged through
`to_toon`, `from_toon` and `convert`, and a 2xx response missing the
expected key is wrapped as `TOON_PARSE_ERROR`. -/
theorem C3_witness :
    (cDemo.to_toon "x" "auto" (.urlError "down")).result =
      .error (.yv (NetworkError (.str "Network error: down") .null)) ∧
    errCodeP (cDemo.to_toon "x" "auto" (.success (.obj .nil))).result =
      some "TOON_PARSE_ERROR" ∧
    (cDemo.from_toon "t" (.urlError "down")).result =
      .error (.yv (NetworkError (.str "Network error: down") .null)) ∧
    errCodeP (cDemo.from_toon "t" (.success (.obj .nil))).result =
      some "TOON_PARSE_ERROR" ∧
    (cDemo.convert "x" none (.urlError "down")).result =
      .error (.yv (NetworkError (.str "Network error: down") .null)) ∧
    errCodeP (cDemo.convert "x" none (.success (.obj .nil))).result =
      some "TOON_PARSE_ERROR" := by
  have h1 := C3_toon_wrap_policy cDemo "x" "auto" "t" none (.urlError "down")
    (NetworkError (.str "Network error: down") .null) (.obj .nil) (.keyError "toon")
  have h2 := C3_toon_wrap_policy cDemo "x" "auto" "t" none (.success (.obj .nil))
    (NetworkError (.str "Network error: down") .null) (.obj .nil) (.keyError "toon")
  have h3 := C3_toon_wrap_policy cDemo "x" "auto" "t" none (.success (.obj .nil))
    (NetworkError (.str "Network error: down") .null) (.obj .nil) (.keyError "json")
  exact ⟨h1.1 (by decide) rfl,
    h2.2.1 (by decide) rfl rfl,
    h1.2.2.1 (by decide) rfl,
    h3.2.2.2.1 (by decide) rfl rfl,
    h1.2.2.2.2.1 (by decide) rfl,
    h2.2.2.2.2.2 (by decide) rfl (Or.inl rfl)⟩

/-- Claim C8: `optimize_rag` on a list of documents makes exactly the same
`optimize_and_run` call (same input text, same forwarded arguments, same
request, same result) as on the single string joining the list with a blank
line; the joined text must be non-empty (else `VALIDATION_ERROR`); the
delegated call uses `use_rag = true` and a chunk limit defaulting to 10. -/
theorem C8_optimize_rag_join (c : YAVIQClient) (l : List String) (s mode : String)
    (limit : Option ℤ) (debug : Bool) (net : NetOutcome) :
    c.optimize_rag (.inr l) mode limit debug net =
      c.optimize_rag (.inl (pyJoinBlank l)) mode limit debug net ∧
    (pyJoinBlank l = "" →
      errCodeP (c.optimize_rag (.inr l) mode limit debug net).result =
        some "VALIDATION_ERROR") ∧
    (s ≠ "" →
      c.optimize_rag (.inl s) mode none debug net =
        c.optimize_and_run s mode "auto" none true false none (some 10) debug net) := by
  refine ⟨rfl, ?_, ?_⟩
  · intro hj
    simp only [YAVIQClient.optimize_rag]
    rw [hj]
    simp [errCodeP, ValidationError]
  · intro hs
    simp only [YAVIQClient.optimize_rag]
    rw [if_neg hs]
    rfl

/-- Witness for C8: `["a", "b"]` against `"a\n\nb"`, the empty document
list, and the delegation shape with the default chunk limit. -/
theorem C8_witness :
    cDemo.optimize_rag (.inr ["a", "b"]) "balanced" none false (.urlError "down") =
      cDemo.optimize_rag (.inl "a\n\nb") "balanced" none false (.urlError "down") ∧
    errCodeP (cDemo.optimize_rag (.inr []) "balanced" none false (.urlError "down")).result =
      some "VALIDATION_ERROR" ∧
    cDemo.optimize_rag (.inl "a\n\nb") "balanced" none false (.urlError "down") =
      cDemo.optimize_and_run "a\n\nb" "balanced" "auto" none true false none (some 10) false
        (.urlError "down") := by
  have h1 := C8_optimize_rag_join cDemo ["a", "b"] "a\n\nb" "balanced" none false (.urlError "down")
  have h2 := C8_optimize_rag_join cDemo [] "a\n\nb" "balanced" none false (.urlError "down")
  exact ⟨h1.1, h2.2.1 rfl, h1.2.2 (by decide)⟩

/-- Claim C9 (as written) is refuted here: on the 2xx passthrough response
`"hi"` (a non-mapping JSON value), `optimize` with telemetry enabled raises
an `AttributeError` from `result.get('tokensSaved', 0)` inside the
telemetry line, while with telemetry disabled it returns the value — so the
flag does affect the returned value for such responses. -/
theorem C9_counterexample :
    (cDemoOn.optimize "x" "medium" "auto" none false (.success (.str "hi"))).result =
      .error (.attributeError "object has no attribute get") ∧
    (cDemo.optimize "x" "medium" "auto" none false (.success (.str "hi"))).result =
      .ok (.str "hi") :=
  ⟨rfl, rfl⟩

/-- Claim C9 (amended): the telemetry flag never changes the requests
issued; with the flag off no diagnostic is printed; an error outcome is
identical under both flag values; and whenever the optimize result is a
mapping (every enveloped or mapping-shaped response), the returned mapping
is identical under both flag values and enabling telemetry only adds
exactly one diagnostic line.  (For a non-mapping passthrough result the
telemetry line itself raises, per the counterexample.) -/
theorem C9_telemetry_frame (c : YAVIQClient) (input mode format : String)
    (model : Option String) (debug : Bool) (net : NetOutcome) (fs : JObj) (e : PyErr) :
    ((withTelemetry c true).optimize input mode format model debug net).requests =
      ((withTelemetry c false).optimize input mode format model debug net).requests ∧
    ((withTelemetry c false).optimize input mode format model debug net).logs = [] ∧
    (((withTelemetry c false).optimize input mode format model debug net).result = .error e →
      ((withTelemetry c true).optimize input mode format model debug net).result = .error e) ∧
    (((withTelemetry c false).optimize input mode format model debug net).result =
        .ok (.obj fs) →
      ((withTelemetry c true).optimize input mode format model debug net).result =
          .ok (.obj fs) ∧
        ((withTelemetry c true).optimize input mode format model debug net).logs.length = 1) := by
  by_cases hin : input = ""
  · subst hin
    exact ⟨rfl, rfl, fun h => h, fun h => absurd h (by simp [YAVIQClient.optimize])⟩
  · have hpp : (withTelemetry c true).http_post "/v1/optimize"
        (.obj (JObj.ofList [("input", .str input), ("format", .str format),
          ("mode", .str (YAVIQClient.normalize_mode mode)), ("model", jOptStr model)])) net =
      (withTelemetry c false).http_post "/v1/optimize"
        (.obj (JObj.ofList [("input", .str input), ("format", .str format),
          ("mode", .str (YAVIQClient.normalize_mode mode)), ("model", jOptStr model)])) net := rfl
    simp only [YAVIQClient.optimize, if_neg hin]
    rw [hpp]
    obtain ⟨res, reqs⟩ := (withTelemetry c false).http_post "/v1/optimize"
        (.obj (JObj.ofList [("input", .str input), ("format", .str format),
          ("mode", .str (YAVIQClient.normalize_mode mode)), ("model", jOptStr model)])) net
    cases res with
    | error e0 =>
      exact ⟨rfl, rfl, fun h => h, fun h => absurd h (by simp)⟩
    | ok result =>
      dsimp only
      rw [if_pos (show (withTelemetry c true).send_telemetry = true from rfl),
        if_neg (show ¬(withTelemetry c false).send_telemetry = true from
          fun h => Bool.noConfusion h)]
      cases hline : telemetry_line_optimize result with
      | ok line =>
        refine ⟨rfl, rfl, fun h => absurd h (by simp), fun h => ?_⟩
        have hr : result = .obj fs := by injection h
        subst hr
        exact ⟨rfl, rfl⟩
      | error e2 =>
        refine ⟨rfl, rfl, fun h => absurd h (by simp), fun h => ?_⟩
        have hr : result = .obj fs := by injection h
        subst hr
        exact absurd hline (by simp [telemetry_line_optimize])

/-- Witness for C9 (amended): a mapping-shaped optimize result with and
without telemetry. -/
theorem C9_witness :
    (cDemoOn.optimize "x" "medium" "auto" none false
        (.success (.obj (JObj.ofList [("tokensSaved", .num 3)])))).result =
      .ok (.obj (JObj.ofList [("tokensSaved", .num 3)])) ∧
    (cDemoOn.optimize "x" "medium" "auto" none false
        (.success (.obj (JObj.ofList [("tokensSaved", .num 3)])))).logs.length = 1 := by
  have h := C9_telemetry_frame cDemo "x" "medium" "auto" none false
    (.success (.obj (JObj.ofList [("tokensSaved", .num 3)])))
    (JObj.ofList [("tokensSaved", .num 3)]) (.keyError "unused")
  exact h.2.2.2 rfl

/-- The `count_tokens` fallback applied to the string value of
`optimized.get("optimized", "")` never raises. -/
theorem count_tokens_val_str (t : String) :
    count_tokens_val (.str t) = .ok (YAVIQClient.count_tokens t) := by
  by_cases h : t = ""
  · subst h
    rfl
  · simp [count_tokens_val, jTruthy, h]

/-- Evaluation of `YAVIQClient.estimate_tokens` on a mapping-shaped optimize
result whose token fields are numbers when present: the counts follow the
`or`-fallback, then savings and the guarded rounded percentage. -/
theorem estimate_tokens_fields (c : YAVIQClient) (input mode format : String)
    (net : NetOutcome) (fs : JObj) (origF optF : Option ℚ) (optTxt : String)
    (hin : input ≠ "")
    (hopt : (c.optimize input mode format none false net).result = .ok (.obj fs))
    (horig : fs.find "originalTokens" = origF.map (fun q => JVal.num q))
    (hoptf : fs.find "optimizedTokens" = optF.map (fun q => JVal.num q))
    (htxt : (fs.find "optimized").getD (.str "") = .str optTxt) :
    (c.estimate_tokens input mode format net).result =
      .ok ⟨pyOrNumFallback origF (YAVIQClient.count_tokens input),
        pyOrNumFallback optF (YAVIQClient.count_tokens optTxt),
        pyOrNumFallback origF (YAVIQClient.count_tokens input) -
          pyOrNumFallback optF (YAVIQClient.count_tokens optTxt),
        if pyOrNumFallback origF (YAVIQClient.count_tokens input) > 0 then
          pyRound2 ((pyOrNumFallback origF (YAVIQClient.count_tokens input) -
              pyOrNumFallback optF (YAVIQClient.count_tokens optTxt)) /
            pyOrNumFallback origF (YAVIQClient.count_tokens input) * 100)
        else 0⟩ := by
  simp only [YAVIQClient.estimate_tokens, if_neg hin]
  rw [hopt]
  dsimp only
  rw [horig, hoptf, htxt, count_tokens_val_str]
  rcases origF with _ | oq
  · rcases optF with _ | pq
    · simp [jTruthy, pyOrNumFallback, jNum, Except.map]
    · by_cases hpq : pq = 0
      · subst hpq
        simp [jTruthy, pyOrNumFallback, jNum, Except.map]
      · simp [jTruthy, pyOrNumFallback, jNum, Except.map, hpq]
  · rcases optF with _ | pq
    · by_cases hoq : oq = 0
      · subst hoq
        simp [jTruthy, pyOrNumFallback, jNum, Except.map]
      · simp [jTruthy, pyOrNumFallback, jNum, Except.map, hoq]
    · by_cases hoq : oq = 0
      · subst hoq
        by_cases hpq : pq = 0
        · subst hpq
          simp [jTruthy, pyOrNumFallback, jNum, Except.map]
        · simp [jTruthy, pyOrNumFallback, jNum, Except.map, hpq]
      · by_cases hpq : pq = 0
        · subst hpq
          simp [jTruthy, pyOrNumFallback, jNum, Except.map, hoq]
        · simp [jTruthy, pyOrNumFallback, jNum, Except.map, hoq, hpq]

/-- Claim C2 (as written) is refuted here: the server reports
`originalTokens: 0` (the field is present), yet `estimate_tokens` returns
`original_tokens = 1` — the local heuristic count of the input `"x"` —
because `optimized.get("originalTokens") or self.count_tokens(...)` falls
back on any falsy value, not only on an absent field. -/
theorem C2_counterexample :
    (cDemo.estimate_tokens "x" "medium" "auto" (.success (.obj (JObj.ofList
        [("originalTokens", .num 0), ("optimizedTokens", .num 5),
         ("optimized", .str "a b c")])))).result =
      .ok ⟨1, 5, -4, -400⟩ ∧
    (JObj.ofList [("originalTokens", .num 0), ("optimizedTokens", .num 5),
      ("optimized", .str "a b c")]).find "originalTokens" = some (.num 0) ∧
    (1 : ℚ) ≠ 0 := by
  refine ⟨?_, rfl, by norm_num⟩
  have h := estimate_tokens_fields cDemo "x" "medium" "auto"
    (.success (.obj (JObj.ofList [("originalTokens", .num 0), ("optimizedTokens", .num 5),
      ("optimized", .str "a b c")])))
    (JObj.ofList [("originalTokens", .num 0), ("optimizedTokens", .num 5),
      ("optimized", .str "a b c")])
    (some 0) (some 5) "a b c" (by decide) rfl rfl rfl rfl
  rw [h]
  have e1 : pyOrNumFallback (some 0) (YAVIQClient.count_tokens "x") = 1 := by
    simp [pyOrNumFallback, count_tokens_x]
  have e2 : pyOrNumFallback (some 5) (YAVIQClient.count_tokens "a b c") = 5 := by
    norm_num [pyOrNumFallback]
  rw [e1, e2]
  have e3 : ((1 : ℚ) - 5) / 1 * 100 = (((-400 : ℤ)) : ℚ) := by norm_num
  rw [if_pos (by norm_num : (1 : ℚ) > 0), e3, pyRound2_intCast]
  norm_num [Except.ok.injEq, EstimateResult.mk.injEq]

/-- Claim C2 (amended): for a successful optimize result that is a mapping
whose `originalTokens` / `optimizedTokens` fields are numbers when present,
`estimate_tokens` takes each count from the server field when it is present
and truthy (nonzero) and from the local `count_tokens` heuristic when the
field is absent or falsy; the returned mapping satisfies
`estimated_savings = original_tokens - optimized_tokens` and
`estimated_savings_percent = round(savings / original * 100, 2)` when
`original_tokens > 0`, and `estimated_savings_percent = 0` otherwise (in
particular, no division-by-zero failure when `original_tokens` is 0). -/
theorem C2_estimate_savings (c : YAVIQClient) (input mode format : String)
    (net : NetOutcome) (fs : JObj) (origF optF : Option ℚ) (optTxt : String)
    (hin : input ≠ "")
    (hopt : (c.optimize input mode format none false net).result = .ok (.obj fs))
    (horig : fs.find "originalTokens" = origF.map (fun q => JVal.num q))
    (hoptf : fs.find "optimizedTokens" = optF.map (fun q => JVal.num q))
    (htxt : (fs.find "optimized").getD (.str "") = .str optTxt) :
    ∃ r : EstimateResult,
      (c.estimate_tokens input mode format net).result = .ok r ∧
      r.original_tokens = pyOrNumFallback origF (YAVIQClient.count_tokens input) ∧
      r.optimized_tokens = pyOrNumFallback optF (YAVIQClient.count_tokens optTxt) ∧
      r.estimated_savings = r.original_tokens - r.optimized_tokens ∧
      r.estimated_savings_percent =
        (if r.original_tokens > 0 then
          pyRound2 (r.estimated_savings / r.original_tokens * 100)
        else 0) :=
  ⟨_, estimate_tokens_fields c input mode format net fs origF optF optTxt
      hin hopt horig hoptf htxt, rfl, rfl, rfl, rfl⟩

/-- Witness for C2 (amended): a result with `originalTokens` absent and
`optimizedTokens = 5` present. -/
theorem C2_witness :
    ∃ r : EstimateResult,
      (cDemo.estimate_tokens "x" "medium" "auto" (.success (.obj (JObj.ofList
          [("optimizedTokens", .num 5)])))).result = .ok r ∧
      r.original_tokens = pyOrNumFallback none (YAVIQClient.count_tokens "x") ∧
      r.optimized_tokens = pyOrNumFallback (some 5) (YAVIQClient.count_tokens "") ∧
      r.estimated_savings = r.original_tokens - r.optimized_tokens ∧
      r.estimated_savings_percent =
        (if r.original_tokens > 0 then
          pyRound2 (r.estimated_savings / r.original_tokens * 100)
        else 0) :=
  C2_estimate_savings cDemo "x" "medium" "auto"
    (.success (.obj (JObj.ofList [("optimizedTokens", .num 5)])))
    (JObj.ofList [("optimizedTokens", .num 5)]) none (some 5) ""
    (by decide) rfl rfl rfl rfl
